import Mathlib

/-!
Shallow embedding of the authorization / ACL layer of the OpenVPN 3 Linux
client (connection-creds.hpp) and of the session-manager proxy pieces
relevant to readiness errors and log-event parsing (proxy-sessionmgr.hpp),
with theorems checking the natural-language specification against them.
-/

namespace OpenVPN3

/-- User identifier, a uid_t on the wire (uint32); only equality matters here. -/
abbrev Uid := Nat

/-- Error kinds observable by a caller.  The first five model
DBusCredentialsException with its quark domains and messages
(acl.denied with message Access denied, acl.denied with message
Owner access denied, acl.duplicate, acl.nogrant) plus the DBusException
rethrown when GetUID fails; readyException models ReadyException thrown
by the session proxy Ready call; dbusException models a plain
DBusException from other proxy calls. -/
inductive ErrKind where
  | accessDenied (uid : Uid)
  | ownerAccessDenied (uid : Uid)
  | duplicateGrant (requester : Uid)
  | noSuchGrant (requester : Uid)
  | lookupError
  | readyException (msg : String)
  | dbusException (msg : String)
  deriving Repr, DecidableEq

/-- State of a DBusCredentials object: owner uid fixed at construction,
the public-access flag (acl_public, default false) and the ACL list
(acl_list, a std::vector of uid_t kept as a list in push_back order). -/
structure DBusCredentials where
  owner : Uid
  acl_public : Bool
  acl_list : List Uid
  deriving Repr, DecidableEq

/-- DBusCredentials::GrantAccess.  Scans acl_list for uid; if present it
throws the acl.duplicate exception (whose requester field is the owner),
otherwise it appends uid with push_back.  The result pairs the outcome
with the post-state, since a thrown exception leaves the object as it was. -/
def GrantAccess (c : DBusCredentials) (uid : Uid) :
    Except ErrKind Unit × DBusCredentials :=
  if c.acl_list.contains uid then
    (Except.error (ErrKind.duplicateGrant c.owner), c)
  else
    (Except.ok (), { c with acl_list := c.acl_list ++ [uid] })

/-- DBusCredentials::RevokeAccess.  If uid occurs in acl_list it removes
every occurrence (erase of std::remove), otherwise it throws the
acl.nogrant exception, leaving the list untouched. -/
def RevokeAccess (c : DBusCredentials) (uid : Uid) :
    Except ErrKind Unit × DBusCredentials :=
  if c.acl_list.contains uid then
    (Except.ok (), { c with acl_list := c.acl_list.filter (fun u => u != uid) })
  else
    (Except.error (ErrKind.noSuchGrant c.owner), c)

/-- DBusCredentials::check_acl.  uidLookup is the outcome GetUID would
report for the sender bus name: GetUID is only consulted after the
public-access shortcut, and a failure there (the rethrown DBusException)
propagates out of the check.  All branches follow the source order:
public shortcut, owner match, root override, owner-only denial,
ACL scan, final denial carrying the sender uid. -/
def check_acl (c : DBusCredentials) (uidLookup : Except Unit Uid)
    (owner_only allow_root : Bool) : Except ErrKind Unit :=
  if c.acl_public && !owner_only then
    Except.ok ()
  else
    match uidLookup with
    | Except.error _ => Except.error ErrKind.lookupError
    | Except.ok sender_uid =>
      if sender_uid == c.owner then
        Except.ok ()
      else if allow_root && sender_uid == 0 then
        Except.ok ()
      else if owner_only then
        Except.error (ErrKind.ownerAccessDenied sender_uid)
      else if c.acl_list.contains sender_uid then
        Except.ok ()
      else
        Except.error (ErrKind.accessDenied sender_uid)

/-- DBusCredentials::CheckACL: the general access check, check_acl with
owner_only false. -/
def CheckACL (c : DBusCredentials) (uidLookup : Except Unit Uid)
    (allow_root : Bool) : Except ErrKind Unit :=
  check_acl c uidLookup false allow_root

/-- DBusCredentials::CheckOwnerAccess: the owner-only check, check_acl with
owner_only true. -/
def CheckOwnerAccess (c : DBusCredentials) (uidLookup : Except Unit Uid)
    (allow_root : Bool) : Except ErrKind Unit :=
  check_acl c uidLookup true allow_root

/-- One ACL mutation as issued over the bus. -/
inductive AclOp where
  | grant (uid : Uid)
  | revoke (uid : Uid)
  deriving Repr, DecidableEq

/-- Post-state of one GrantAccess or RevokeAccess call (a thrown
exception leaves the state unchanged). -/
def applyAclOp (c : DBusCredentials) (op : AclOp) : DBusCredentials :=
  match op with
  | AclOp.grant u => (GrantAccess c u).2
  | AclOp.revoke u => (RevokeAccess c u).2

/-- Post-state of a sequence of GrantAccess / RevokeAccess calls. -/
def applyAclOps (c : DBusCredentials) (ops : List AclOp) : DBusCredentials :=
  ops.foldl applyAclOp c

/-- OpenVPN3SessionProxy::Ready.  The argument is the outcome of the
underlying Ready bus call issued through simple_call (ok, or a
DBusException carrying a raw error string).  Any DBusException is caught
and rethrown as a ReadyException built from the raw error, so a failing
Ready call always surfaces as the distinguished ready error kind. -/
def sessionReady (call : Except String Unit) : Except ErrKind Unit :=
  match call with
  | Except.ok _ => Except.ok ()
  | Except.error e => Except.error (ErrKind.readyException e)

/-- Wire content of one log-event record as handed to LogEvent::Parse:
the log_group and log_category uint32 values, the log_message string and
the message length reported alongside it by g_variant_get_string. -/
structure LogRecordWire where
  log_group : Nat
  log_category : Nat
  log_message : String
  message_len : Nat
  deriving Repr, DecidableEq

/-- Parsed log event.  group and category hold the numeric enum value;
0 is LogGroup::UNDEFINED respectively LogCategory::UNDEFINED (the first
enumerator of each closed enumeration, per the spec the undefined
variant used for forward compatibility). -/
structure LogEvent where
  group : Nat
  group_str : String
  category : Nat
  category_str : String
  message : String
  deriving Repr, DecidableEq

/-- LogEvent::reset: every field back to the undefined variant and empty
strings. -/
def LogEvent.reset : LogEvent :=
  { group := 0, group_str := "", category := 0, category_str := "",
    message := "" }

/-- LogEvent::Parse, generic over the LogGroup_str and LogCategory_str
tables (their concrete entries live in log-helpers.hpp).  A wire value v
updates the field only when 0 < v and v is below the table size,
otherwise the field keeps the undefined value set by reset; the message
is then stored, and the only failure is the inconsistent-length guard on
the message. -/
def LogEvent.Parse (groupTable categoryTable : List String)
    (w : LogRecordWire) : Except ErrKind LogEvent :=
  let e0 := LogEvent.reset
  let e1 :=
    if 0 < w.log_group ∧ w.log_group < groupTable.length then
      { e0 with group := w.log_group,
                group_str := groupTable.getD w.log_group "" }
    else e0
  let e2 :=
    if 0 < w.log_category ∧ w.log_category < categoryTable.length then
      { e1 with category := w.log_category,
                category_str := categoryTable.getD w.log_category "" }
    else e1
  let e3 := { e2 with message := w.log_message }
  if w.message_len ≠ w.log_message.length then
    Except.error (ErrKind.dbusException
      "Failed retrieving log event message text (inconsistent length)")
  else
    Except.ok e3

section AclLemmas

lemma contains_eq_mem (l : List Uid) (u : Uid) : l.contains u = true ↔ u ∈ l :=
  List.elem_iff

lemma grantAccess_acl_nodup (c : DBusCredentials) (u : Uid)
    (h : c.acl_list.Nodup) : (GrantAccess c u).2.acl_list.Nodup := by
  by_cases hc : u ∈ c.acl_list
  · simp [GrantAccess, contains_eq_mem, hc, h]
  · have hd : c.acl_list.Disjoint [u] := by
      intro a ha hb
      simp only [List.mem_singleton] at hb
      exact hc (hb ▸ ha)
    simpa [GrantAccess, contains_eq_mem, hc] using
      h.append (List.nodup_singleton u) hd

lemma revokeAccess_acl_nodup (c : DBusCredentials) (u : Uid)
    (h : c.acl_list.Nodup) : (RevokeAccess c u).2.acl_list.Nodup := by
  by_cases hc : u ∈ c.acl_list
  · simpa [RevokeAccess, contains_eq_mem, hc] using h.filter _
  · simp [RevokeAccess, contains_eq_mem, hc, h]

lemma applyAclOp_nodup (c : DBusCredentials) (op : AclOp)
    (h : c.acl_list.Nodup) : (applyAclOp c op).acl_list.Nodup := by
  cases op with
  | grant u => exact grantAccess_acl_nodup c u h
  | revoke u => exact revokeAccess_acl_nodup c u h

lemma applyAclOps_nodup (c : DBusCredentials) (ops : List AclOp)
    (h : c.acl_list.Nodup) : (applyAclOps c ops).acl_list.Nodup := by
  induction ops generalizing c with
  | nil => simpa [applyAclOps] using h
  | cons op ops ih =>
      simpa [applyAclOps, List.foldl_cons] using
        ih (applyAclOp c op) (applyAclOp_nodup c op h)

lemma filter_ne_of_not_mem (l : List Uid) (u : Uid) (h : u ∉ l) :
    l.filter (fun x => x != u) = l := by
  induction l with
  | nil => rfl
  | cons a l ih =>
      simp only [List.mem_cons, not_or] at h
      have ha : a ≠ u := fun hau => h.1 hau.symm
      simp [List.filter_cons, bne_iff_ne, ha, ih h.2]

end AclLemmas

/-- C1: With a resolved caller uid, the general access check (CheckACL,
check_acl with owner_only false) succeeds exactly when public access is
set, the caller is the owner, root override applies, or the caller uid is
in the granted list; and whenever it does not succeed it fails with the
access-denied error carrying the caller uid. -/
theorem checkACL_characterization (c : DBusCredentials) (allow_root : Bool)
    (uid : Uid) :
    (CheckACL c (Except.ok uid) allow_root = Except.ok () ↔
      (c.acl_public = true ∨ uid = c.owner ∨ (allow_root = true ∧ uid = 0) ∨
        uid ∈ c.acl_list))
    ∧ (CheckACL c (Except.ok uid) allow_root = Except.ok () ∨
       CheckACL c (Except.ok uid) allow_root =
         Except.error (ErrKind.accessDenied uid)) := by
  unfold CheckACL check_acl
  constructor
  · by_cases hpub : c.acl_public <;>
      by_cases hown : uid = c.owner <;>
        by_cases hroot : allow_root = true ∧ uid = 0 <;>
          by_cases hmem : uid ∈ c.acl_list <;>
            simp_all [contains_eq_mem]
  · by_cases hpub : c.acl_public <;>
      by_cases hown : uid = c.owner <;>
        by_cases hroot : allow_root = true ∧ uid = 0 <;>
          by_cases hmem : uid ∈ c.acl_list <;>
            simp_all [contains_eq_mem]

/-- C2: On a public-access object, a caller that is neither the owner nor
covered by the root override passes CheckACL yet fails CheckOwnerAccess
with the owner-access denial; moreover CheckOwnerAccess gives the same
verdict whatever the public-access flag is set to. -/
theorem ownerAccess_ignores_public (c : DBusCredentials) (allow_root : Bool)
    (uid : Uid) (b : Bool) (res : Except Unit Uid)
    (hpub : c.acl_public = true) (hown : uid ≠ c.owner)
    (hroot : allow_root = true → uid ≠ 0) :
    CheckACL c (Except.ok uid) allow_root = Except.ok ()
    ∧ CheckOwnerAccess c (Except.ok uid) allow_root =
        Except.error (ErrKind.ownerAccessDenied uid)
    ∧ CheckOwnerAccess { c with acl_public := b } res allow_root =
        CheckOwnerAccess c res allow_root := by
  refine ⟨?_, ?_, ?_⟩
  · simp [CheckACL, check_acl, hpub]
  · have hr : ¬(allow_root = true ∧ uid = 0) := by
      intro h
      exact (hroot h.1) h.2
    unfold CheckOwnerAccess check_acl
    by_cases har : allow_root <;> simp_all
  · unfold CheckOwnerAccess check_acl
    simp

/-- C2 witness: owner 1, public object, caller uid 5 granted in the ACL,
root override allowed: the general check passes, the owner-only check
denies, and the owner-only verdict is unchanged with public access off. -/
theorem ownerAccess_ignores_public_witness :
    CheckACL ⟨1, true, [5]⟩ (Except.ok 5) true = Except.ok ()
    ∧ CheckOwnerAccess ⟨1, true, [5]⟩ (Except.ok 5) true =
        Except.error (ErrKind.ownerAccessDenied 5)
    ∧ CheckOwnerAccess ⟨1, false, [5]⟩ (Except.ok 5) true =
        CheckOwnerAccess ⟨1, true, [5]⟩ (Except.ok 5) true :=
  ownerAccess_ignores_public ⟨1, true, [5]⟩ true 5 false (Except.ok 5)
    rfl (by decide) (fun _ => by decide)

/-- C3 counterexample: GrantAccess does not special-case the owner.  On an
object owned by uid 1000 with an empty ACL, granting uid 1000 succeeds and
stores 1000 in the granted list, instead of failing with the
duplicate-grant error as the claim states. -/
theorem grantAccess_owner_counterexample :
    GrantAccess ⟨1000, false, []⟩ 1000 =
      (Except.ok (), ⟨1000, false, [1000]⟩) := by
  rfl

/-- C3 amended: granting the owner uid is handled like any other uid: it
fails with the duplicate-grant error exactly when the owner uid is already
in the granted list, and otherwise succeeds and stores the owner uid there. -/
theorem grantAccess_owner_not_special (c : DBusCredentials) :
    (c.owner ∈ c.acl_list →
      GrantAccess c c.owner = (Except.error (ErrKind.duplicateGrant c.owner), c))
    ∧ (c.owner ∉ c.acl_list →
      (GrantAccess c c.owner).1 = Except.ok ()
      ∧ c.owner ∈ (GrantAccess c c.owner).2.acl_list) := by
  constructor
  · intro h
    simp [GrantAccess, contains_eq_mem, h]
  · intro h
    simp [GrantAccess, contains_eq_mem, h]

/-- C3 amended witness: with owner 1000 absent from the ACL, granting 1000
succeeds and 1000 lands in the granted list. -/
theorem grantAccess_owner_not_special_witness :
    (GrantAccess ⟨1000, false, []⟩ 1000).1 = Except.ok ()
    ∧ (1000 : Uid) ∈ (GrantAccess ⟨1000, false, []⟩ 1000).2.acl_list :=
  (grantAccess_owner_not_special ⟨1000, false, []⟩).2 (by decide)

/-- C4: granting a uid already present fails with the duplicate-grant
error and revoking an absent uid fails with the no-such-grant error, and
in both cases the object state, granted list included, is unchanged. -/
theorem grant_revoke_failures_leave_state (c : DBusCredentials) (u v : Uid)
    (hu : u ∈ c.acl_list) (hv : v ∉ c.acl_list) :
    GrantAccess c u = (Except.error (ErrKind.duplicateGrant c.owner), c)
    ∧ RevokeAccess c v = (Except.error (ErrKind.noSuchGrant c.owner), c) := by
  constructor
  · simp [GrantAccess, contains_eq_mem, hu]
  · simp [RevokeAccess, contains_eq_mem, hv]

/-- C4 witness: on an object with granted list containing just 7, granting
7 again and revoking 9 both fail with their errors and leave the state as
it was. -/
theorem grant_revoke_failures_leave_state_witness :
    GrantAccess ⟨1, false, [7]⟩ 7 =
      (Except.error (ErrKind.duplicateGrant 1), ⟨1, false, [7]⟩)
    ∧ RevokeAccess ⟨1, false, [7]⟩ 9 =
      (Except.error (ErrKind.noSuchGrant 1), ⟨1, false, [7]⟩) :=
  grant_revoke_failures_leave_state ⟨1, false, [7]⟩ 7 9 (by decide) (by decide)

/-- C5: starting from a duplicate-free granted list not containing u,
GrantAccess u succeeds and a following RevokeAccess u succeeds and
restores exactly the pre-grant state, list order included. -/
theorem grant_then_revoke_roundtrip (c : DBusCredentials) (u : Uid)
    (hnd : c.acl_list.Nodup) (hu : u ∉ c.acl_list) :
    (GrantAccess c u).1 = Except.ok ()
    ∧ (RevokeAccess (GrantAccess c u).2 u).1 = Except.ok ()
    ∧ (RevokeAccess (GrantAccess c u).2 u).2 = c := by
  have hg : (GrantAccess c u).2 = { c with acl_list := c.acl_list ++ [u] } := by
    simp [GrantAccess, contains_eq_mem, hu]
  refine ⟨?_, ?_, ?_⟩
  · simp [GrantAccess, contains_eq_mem, hu]
  · rw [hg]
    simp [RevokeAccess, contains_eq_mem]
  · rw [hg]
    unfold RevokeAccess
    rw [if_pos (by simp [contains_eq_mem])]
    simp only [List.filter_append]
    rw [filter_ne_of_not_mem c.acl_list u hu]
    simp

/-- C5 witness: owner 1, granted list 2, 3; granting 7 then revoking 7
returns exactly the original object. -/
theorem grant_then_revoke_roundtrip_witness :
    (GrantAccess ⟨1, false, [2, 3]⟩ 7).1 = Except.ok ()
    ∧ (RevokeAccess (GrantAccess ⟨1, false, [2, 3]⟩ 7).2 7).1 = Except.ok ()
    ∧ (RevokeAccess (GrantAccess ⟨1, false, [2, 3]⟩ 7).2 7).2 =
        ⟨1, false, [2, 3]⟩ :=
  grant_then_revoke_roundtrip ⟨1, false, [2, 3]⟩ 7 (by decide) (by decide)

/-- C6: any sequence of GrantAccess / RevokeAccess calls starting from a
freshly constructed object (empty granted list) keeps the granted list
free of duplicates. -/
theorem acl_ops_preserve_uniqueness (ops : List AclOp) (owner : Uid)
    (pub : Bool) :
    (applyAclOps ⟨owner, pub, []⟩ ops).acl_list.Nodup :=
  applyAclOps_nodup ⟨owner, pub, []⟩ ops List.nodup_nil

/-- C7: whenever a check actually resolves the sender identity, that is
for every owner-only check and for every general check on an object
without public access, a GetUID failure makes the whole check fail with
the lookup error; access is never granted by default.  The hypothesis
characterizes exactly the paths of check_acl on which GetUID is invoked
in the source. -/
theorem lookup_failure_aborts_check (c : DBusCredentials)
    (owner_only allow_root : Bool)
    (hcalled : owner_only = true ∨ c.acl_public = false) :
    check_acl c (Except.error ()) owner_only allow_root =
      Except.error ErrKind.lookupError := by
  unfold check_acl
  rcases hcalled with h | h <;> simp [h]

/-- C7 witness: on a non-public object, a general check whose uid lookup
fails reports the lookup error. -/
theorem lookup_failure_aborts_check_witness :
    check_acl ⟨1, false, []⟩ (Except.error ()) false true =
      Except.error ErrKind.lookupError :=
  lookup_failure_aborts_check ⟨1, false, []⟩ false true (Or.inr rfl)

/-- C8: a failing Ready call always surfaces as the ready error kind, and
that kind is distinct from the access-denied, owner-access-denied,
duplicate-grant, no-such-grant and lookup error kinds, so a caller can
tell supply-credentials apart from access-denied by the kind alone. -/
theorem ready_error_distinguished (msg : String) :
    sessionReady (Except.error msg) =
      Except.error (ErrKind.readyException msg)
    ∧ (∀ u : Uid, ErrKind.readyException msg ≠ ErrKind.accessDenied u)
    ∧ (∀ u : Uid, ErrKind.readyException msg ≠ ErrKind.ownerAccessDenied u)
    ∧ (∀ u : Uid, ErrKind.readyException msg ≠ ErrKind.duplicateGrant u)
    ∧ (∀ u : Uid, ErrKind.readyException msg ≠ ErrKind.noSuchGrant u)
    ∧ ErrKind.readyException msg ≠ ErrKind.lookupError := by
  refine ⟨rfl, fun u h => ?_, fun u h => ?_, fun u h => ?_, fun u h => ?_,
    fun h => ?_⟩ <;> cases h

/-- C9: on a wire record whose reported message length is consistent,
LogEvent::Parse always succeeds; a group or category value outside the
defined range leaves that field at the undefined variant set by reset,
and the message is parsed regardless. -/
theorem logEvent_parse_out_of_range_degrades
    (gt ct : List String) (w : LogRecordWire)
    (hlen : w.message_len = w.log_message.length) :
    ∃ ev, LogEvent.Parse gt ct w = Except.ok ev
      ∧ (¬(0 < w.log_group ∧ w.log_group < gt.length) →
          ev.group = LogEvent.reset.group
          ∧ ev.group_str = LogEvent.reset.group_str)
      ∧ (¬(0 < w.log_category ∧ w.log_category < ct.length) →
          ev.category = LogEvent.reset.category
          ∧ ev.category_str = LogEvent.reset.category_str)
      ∧ ev.message = w.log_message := by
  unfold LogEvent.Parse
  rw [if_neg (by simp [hlen])]
  refine ⟨_, rfl, ?_, ?_, rfl⟩
  · intro hg
    rw [if_neg hg]
    by_cases hc : 0 < w.log_category ∧ w.log_category < ct.length <;>
      simp [hc]
  · intro hc
    rw [if_neg hc]
    by_cases hg : 0 < w.log_group ∧ w.log_group < gt.length <;>
      simp [hg]

/-- C9 witness: with empty tables every nonzero wire value is out of
range; both fields stay undefined and the message hello is parsed. -/
theorem logEvent_parse_out_of_range_degrades_witness :
    ∃ ev, LogEvent.Parse [] [] ⟨99, 99, "hello", 5⟩ = Except.ok ev
      ∧ (¬((0:Nat) < 99 ∧ (99:Nat) < ([] : List String).length) →
          ev.group = LogEvent.reset.group
          ∧ ev.group_str = LogEvent.reset.group_str)
      ∧ (¬((0:Nat) < 99 ∧ (99:Nat) < ([] : List String).length) →
          ev.category = LogEvent.reset.category
          ∧ ev.category_str = LogEvent.reset.category_str)
      ∧ ev.message = "hello" :=
  logEvent_parse_out_of_range_degrades [] [] ⟨99, 99, "hello", 5⟩ rfl

/-- C10: on a public-access object, the general check succeeds while
never consulting the uid lookup, so its outcome is identical for any two
senders, resolvable or not. -/
theorem public_access_sender_independent (c : DBusCredentials)
    (allow_root : Bool) (r1 r2 : Except Unit Uid)
    (hpub : c.acl_public = true) :
    CheckACL c r1 allow_root = Except.ok ()
    ∧ CheckACL c r1 allow_root = CheckACL c r2 allow_root := by
  constructor
  · simp [CheckACL, check_acl, hpub]
  · simp [CheckACL, check_acl, hpub]

/-- C10 witness: public object owned by uid 1; an unresolvable sender and
a resolved non-owner sender get the same successful verdict. -/
theorem public_access_sender_independent_witness :
    CheckACL ⟨1, true, []⟩ (Except.error ()) false = Except.ok ()
    ∧ CheckACL ⟨1, true, []⟩ (Except.error ()) false =
        CheckACL ⟨1, true, []⟩ (Except.ok 5) false :=
  public_access_sender_independent ⟨1, true, []⟩ false
    (Except.error ()) (Except.ok 5) rfl

end OpenVPN3
